import Mathlib

/-!
Shallow embedding of the RST Sweden temperature-sensor decoder
(`src/devices/rst_sweden.c`, function `rst_decode`) and theorems checking
the natural-language specification of the decoder against it.

The bit rows offered by the capture framework are modelled by `BitRow`
(a byte list plus a bit count).  The helper utilities of the host
framework (`parity8`, `reverse8`, `xor_bytes`, `crc8`, `bitbuffer_invert`)
are not part of the source tree under verification; they are modelled
from the spec, as documented on each definition.  The uninitialised
stack contents of the local `packet` array are modelled by an explicit
function `g : Nat → Nat` supplied to the decoder.
-/

set_option maxRecDepth 40000

namespace RstSweden

/-- Modelled from the spec: helper `parity8` of the host framework (not under
`src/`); the even parity of one byte, "count of set bits, mod 2". -/
def parity8 (b : Nat) : Nat :=
  (((b >>> 7) &&& 1) + ((b >>> 6) &&& 1) + ((b >>> 5) &&& 1) + ((b >>> 4) &&& 1) +
   ((b >>> 3) &&& 1) + ((b >>> 2) &&& 1) + ((b >>> 1) &&& 1) + (b &&& 1)) % 2

/-- Modelled from the spec: helper `reverse8` of the host framework (not under
`src/`); per-byte bit reversal (bit 0 and bit 7 swap, etc.), returning a byte. -/
def reverse8 (b : Nat) : Nat :=
  ((List.range 8).foldl (fun a j => a ||| (((b >>> j) &&& 1) <<< (7 - j))) 0) % 256

/-- Modelled from the spec: helper `xor_bytes` of the host framework (not under
`src/`); XOR of the first `num` bytes of the payload. -/
def xor_bytes (p : Nat → Nat) (num : Nat) : Nat :=
  (List.range num).foldl (fun a i => a ^^^ p i) 0

/-- One MSB-first CRC shift step over a byte-sized remainder. -/
def crcShift (poly r : Nat) : Nat :=
  if r &&& 0x80 ≠ 0 then ((r <<< 1) ^^^ poly) % 256 else (r <<< 1) % 256

/-- Eight CRC shift steps. -/
def crcBits (poly : Nat) : Nat → Nat → Nat
  | r, 0 => r
  | r, n + 1 => crcBits poly (crcShift poly r) n

/-- Modelled from the spec: helper `crc8` of the host framework (not under
`src/`); CRC-8 over the first `nBytes` bytes, given polynomial and initial
value, no reflection, no final XOR. -/
def crc8 (p : Nat → Nat) (nBytes poly init : Nat) : Nat :=
  (List.range nBytes).foldl (fun r i => crcBits poly (r ^^^ p i) 8) init

/-- One candidate row of the bitbuffer: raw bytes (`bb[row]`, bytes beyond the
stored list read as the zero-initialised capacity) and its bit count
(`bits_per_row[row]`). -/
structure BitRow where
  data : List Nat
  len : Nat
deriving DecidableEq, Repr

/-- Raw byte `i` of a row (a `uint8_t`, hence reduced mod 256). -/
def BitRow.byte (r : BitRow) (i : Nat) : Nat := r.data.getD i 0 % 256

/-- Mask of the bits of byte `i` that lie inside the row's `len` used bits
(MSB first).  `bitbuffer_invert` flips exactly these bits. -/
def usedMask (len i : Nat) : Nat := 255 - (255 >>> min 8 (len - 8 * i))

/-- Modelled from the spec: byte `i` of a row as seen through the shared,
destructively invertible bitbuffer.  `inv` is the parity of the number of
`bitbuffer_invert` calls performed so far on the whole buffer; inversion flips
only the `len` used bits of each row. -/
def effByte (r : BitRow) (inv : Bool) (i : Nat) : Nat :=
  if inv then r.byte i ^^^ usedMask r.len i else r.byte i

/-- Sensor types of the decoder (`enum sensortypes`). -/
inductive SensorType where
  | RST_UNKNOWN
  | RST_TEMP
deriving DecidableEq, Repr

/-- The structured output record built by `data_make` on success (the
temperature is kept in signed tenths of a degree; the float rendering
`temp * 0.1f` belongs to the output layer). -/
structure Record where
  model : String
  id : Nat
  channel : Nat
  battery_ok : Nat
  temp_tenths : Int
  mic : String
deriving DecidableEq, Repr

/-- Modelled from the spec: the host's decode status codes (`decoder.h` is not
under `src/`); distinct values, distinct from the initial `ret = 0` and from
the success value 1. -/
def DECODE_ABORT_LENGTH : Int := -1

/-- Modelled from the spec: sync/header not found status code. -/
def DECODE_ABORT_EARLY : Int := -2

/-- Modelled from the spec: integrity-check (parity/XOR/CRC) failure code. -/
def DECODE_FAIL_MIC : Int := -3

/-- Modelled from the spec: sanity-check failure code. -/
def DECODE_FAIL_SANITY : Int := -4

/-- Per-row failure classifications, one per distinct failure exit of the row
loop body of `rst_decode` (the spec's row-scoped error kinds). -/
inductive RowFail where
  | lengthMismatch
  | syncNotFound
  | parityError
  | xorChecksumError
  | crcError
  | packetLengthMismatch
deriving DecidableEq, Repr

/-- The status code each per-row failure stores into `ret`. -/
def RowFail.code : RowFail → Int
  | .lengthMismatch => DECODE_ABORT_LENGTH
  | .syncNotFound => DECODE_ABORT_EARLY
  | .parityError => DECODE_FAIL_MIC
  | .xorChecksumError => DECODE_FAIL_MIC
  | .crcError => DECODE_FAIL_MIC
  | .packetLengthMismatch => DECODE_ABORT_LENGTH

/-- Outcome of the loop body for one row: emit a record and return 1, return
`DECODE_FAIL_SANITY` for the whole call, or `continue` with classification `c`
and buffer-inversion state `inv`. -/
inductive RowStep where
  | emit (rec : Record)
  | sanityFail
  | cont (c : RowFail) (inv : Bool)
deriving DecidableEq, Repr

/-- The sync-scan loop: compare the 9-bit window to `0x0d`, shifting right one
bit between comparisons, for loop counter `i` while `i < 4` (`fuel = 4 - i`);
a match at counter `i` gives start position `9 - i`. -/
def syncScanAux : Nat → Nat → Nat → Option Nat
  | _, _, 0 => none
  | s, i, fuel + 1 => if s = 0x0d then some (9 - i) else syncScanAux (s >>> 1) (i + 1) fuel

/-- `int sync = b[0] << 1 | b[1] >> 7;` then the 4-iteration scan loop. -/
def syncScan (s : Nat) : Option Nat := syncScanAux s 0 4

/-- `packet[i] = (b[offset / 8] << (offset % 8)) | (b[offset / 8 + 1] >> (8 - offset % 8))`
with `offset = startpos + i * 9`, truncated to a `uint8_t`. -/
def extractedByte (B : Nat → Nat) (startpos i : Nat) : Nat :=
  ((B ((startpos + i * 9) / 8) <<< ((startpos + i * 9) % 8)) |||
   (B ((startpos + i * 9) / 8 + 1) >>> (8 - (startpos + i * 9) % 8))) % 256

/-- `parity = (b[offset / 8 + 1] >> (7 - offset % 8)) & 1` with
`offset = startpos + i * 9`. -/
def parityBit (B : Nat → Nat) (startpos i : Nat) : Nat :=
  (B ((startpos + i * 9) / 8 + 1) >>> (7 - (startpos + i * 9) % 8)) &&& 1

/-- The unstuffing loop: the index of the first payload byte whose trailing
parity bit disagrees with its computed even parity (`fuel` counts the
remaining loop iterations, starting from `unstuffed_len` at index 0). -/
def mismatchFrom (B : Nat → Nat) (startpos : Nat) : Nat → Nat → Option Nat
  | _, 0 => none
  | i, fuel + 1 =>
    if parityBit B startpos i ≠ parity8 (extractedByte B startpos i) then some i
    else mismatchFrom B startpos (i + 1) fuel

/-- The contents of the local `packet` array after the unstuffing loop: bytes
up to and including the loop exit index hold extracted data, later entries
hold the uninitialised stack contents `g`. -/
def packetFn (B : Nat → Nat) (startpos : Nat) (g : Nat → Nat) (err : Option Nat) : Nat → Nat :=
  fun i =>
    match err with
    | none => extractedByte B startpos i
    | some k => if i ≤ k then extractedByte B startpos i else g i

/-- Field extraction from the reflected payload `P` (lines 105-144 of the
source): declared-length check, then channel/rolling-code/temperature/battery
extraction and the record emission guarded by the sensor type. -/
def fieldStage (inv : Bool) (P : Nat → Nat) (ulen : Nat) (st : SensorType) : RowStep :=
  if ((P 1 >>> 1) &&& 0x1f) + 2 ≠ ulen then .cont .packetLengthMismatch inv
  else
    if st = SensorType.RST_TEMP then
      .emit
        { model := "RST-Temperature"
          id := P 0 &&& 0x0f
          channel :=
            if 5 ≤ ((P 0 >>> 5) &&& 0x0f) then ((P 0 >>> 5) &&& 0x0f) - 1
            else (P 0 >>> 5) &&& 0x0f
          battery_ok := (P 4 >>> 6) &&& 1
          temp_tenths :=
            if (P 4 >>> 7) &&& 1 = 0 then
              -(((P 4 &&& 0x0f) * 100 + ((P 3 &&& 0xf0) >>> 4) * 10 + (P 3 &&& 0x0f) : Nat) : Int)
            else ((P 4 &&& 0x0f) * 100 + ((P 3 &&& 0xf0) >>> 4) * 10 + (P 3 &&& 0x0f) : Nat)
          mic := "CRC" }
    else .sanityFail

/-- Checksum validation over the unstuffed packet `pk` (lines 87-103): XOR over
all bytes but the last, then CRC-8 poly `0x07` init `0x00` over all bytes,
then reflection and the field stage. -/
def afterUnstuff (inv : Bool) (pk : Nat → Nat) (ulen : Nat) (st : SensorType) : RowStep :=
  if xor_bytes pk (ulen - 1) ≠ 0 then .cont .xorChecksumError inv
  else if crc8 pk ulen 0x07 0x00 ≠ 0 then .cont .crcError inv
  else fieldStage inv (fun i => reverse8 (pk i)) ulen st

/-- The row body from `bitbuffer_invert` on (lines 64-144): the whole buffer is
inverted, the unstuffing loop runs, and the row is skipped as a parity error
only when the loop exit index `unstuff_error` is nonzero — a first mismatch at
index 0 falls through to the checksum stage with a partially-filled packet. -/
def afterSync (g : Nat → Nat) (inv : Bool) (r : BitRow) (st : SensorType)
    (ulen startpos : Nat) : RowStep :=
  match mismatchFrom (effByte r (!inv)) startpos 0 ulen with
  | some k =>
    if k ≠ 0 then .cont .parityError (!inv)
    else afterUnstuff (!inv) (packetFn (effByte r (!inv)) startpos g (some k)) ulen st
  | none => afterUnstuff (!inv) (packetFn (effByte r (!inv)) startpos g none) ulen st

/-- The loop body of `rst_decode` for one row: length gate
(`unstuffed_len = (bits_per_row + 4) / 9` must be 10, setting
`sensortype = RST_TEMP`), sync scan on the first two bytes of the current
buffer, then the post-sync stages with `unstuffed_len - 1` payload bytes. -/
def processRow (g : Nat → Nat) (inv : Bool) (r : BitRow) : RowStep :=
  if (r.len + 4) / 9 = 10 then
    match syncScan ((effByte r inv 0) <<< 1 ||| (effByte r inv 1) >>> 7) with
    | some startpos =>
      afterSync g inv r SensorType.RST_TEMP ((r.len + 4) / 9 - 1) startpos
    | none => .cont .syncNotFound inv
  else .cont .lengthMismatch inv

/-- The row loop of `rst_decode`: `ret` starts at 0, each continuing row
overwrites it with its classification's code, success returns 1 together with
the emitted record, and the unknown-sensor branch returns
`DECODE_FAIL_SANITY` for the whole call. -/
def runRows (g : Nat → Nat) : Bool → Int → List BitRow → Int × Option Record
  | _, ret, [] => (ret, none)
  | inv, _ret, r :: rest =>
    match processRow g inv r with
    | .emit rec => (1, some rec)
    | .sanityFail => (DECODE_FAIL_SANITY, none)
    | .cont c inv' => runRows g inv' (RowFail.code c) rest

/-- `rst_decode`: run the row loop over the capture with a fresh (uninverted)
buffer and `ret = 0`; `g` models the uninitialised contents of the local
`packet` array. -/
def rst_decode (g : Nat → Nat) (bb : List BitRow) : Int × Option Record :=
  runRows g false 0 bb

/-- The state `(inversion parity, ret)` after a prefix of rows has been
scanned, provided every row of the prefix took the `continue` path. -/
def scanState (g : Nat → Nat) : Bool × Int → List BitRow → Option (Bool × Int)
  | s, [] => some s
  | (inv, _ret), r :: rest =>
    match processRow g inv r with
    | .cont c inv' => scanState g (inv', RowFail.code c) rest
    | _ => none

/-- Zero-initialised model of the uninitialised `packet` stack contents, used
for concrete evaluations. -/
def g0 : Nat → Nat := fun _ => 0

/-- A concrete 90-bit row carrying a fully valid frame: payload (before
reflection) `A8 70 30 A2 83 00 00 C9 96`, i.e. reflected fields
`15 0E 0C 45 C1 00 00 93 69` — rolling code 5, raw channel 0, declared
length 7, subtype bits `0x0C`, temperature +14.5, battery ok. -/
def row_valid : BitRow :=
  ⟨[0x06, 0xab, 0xa3, 0xd9, 0xf5, 0xd3, 0xe3, 0xff, 0xff, 0x36, 0xb4, 0xc0], 90⟩

/-- `row_valid` with its XOR byte replaced (parity bits kept consistent), so
the XOR check fails. -/
def row_xor : BitRow :=
  ⟨[0x06, 0xab, 0xa3, 0xd9, 0xf5, 0xd3, 0xe3, 0xff, 0xff, 0xff, 0xb4, 0xc0], 90⟩

/-- `row_valid` with its CRC byte complemented (parity bits kept consistent),
so the XOR check passes but the CRC check fails. -/
def row_crc : BitRow :=
  ⟨[0x06, 0xab, 0xa3, 0xd9, 0xf5, 0xd3, 0xe3, 0xff, 0xff, 0x36, 0xcb, 0x40], 90⟩

/-- A frame like `row_valid` but with declared length 6 instead of 7 (XOR and
CRC bytes recomputed), so only the declared-length check fails. -/
def row_len : BitRow :=
  ⟨[0x06, 0xab, 0xb3, 0xf9, 0xf5, 0xd3, 0xe3, 0xff, 0xff, 0x76, 0x75, 0xc0], 90⟩

/-- A 90-bit row whose first parity mismatch is at payload index 0: sync at
offset 9, then data bits `11111111` with parity bit 0 (inverted: byte `0x00`,
even parity 0, transmitted parity bit 1). -/
def row_p0 : BitRow := ⟨[0x06, 0xff, 0x80], 90⟩

/-- A 90-bit row whose first parity mismatch is at payload index 1 (index 0 is
parity-consistent), and whose first two bytes after inversion no longer
contain the sync pattern. -/
def row1 : BitRow := ⟨[0x06, 0xff, 0xff, 0xc0], 90⟩

/-- A 10-bit row: fails the length gate (`(10 + 4) / 9 = 1 ≠ 10`). -/
def rowF : BitRow := ⟨[], 10⟩

/-- A 90-bit row of zero bytes: passes the length gate but no shift of its
9-bit window ever equals `0x0d`. -/
def row_nosync : BitRow := ⟨[0x00, 0x00], 90⟩

/-- The record emitted for `row_valid`. -/
def recValid : Record := ⟨"RST-Temperature", 5, 0, 1, 145, "CRC"⟩

/-! ### Stage-unfolding lemmas -/

lemma processRow_bad_len (g : Nat → Nat) (inv : Bool) (r : BitRow)
    (h : (r.len + 4) / 9 ≠ 10) : processRow g inv r = .cont .lengthMismatch inv := by
  unfold processRow
  rw [if_neg h]

lemma processRow_sync_some (g : Nat → Nat) (inv : Bool) (r : BitRow) (sp : Nat)
    (h1 : (r.len + 4) / 9 = 10)
    (h2 : syncScan ((effByte r inv 0) <<< 1 ||| (effByte r inv 1) >>> 7) = some sp) :
    processRow g inv r = afterSync g inv r SensorType.RST_TEMP 9 sp := by
  unfold processRow
  rw [h1, h2]
  simp

lemma processRow_sync_none (g : Nat → Nat) (inv : Bool) (r : BitRow)
    (h1 : (r.len + 4) / 9 = 10)
    (h2 : syncScan ((effByte r inv 0) <<< 1 ||| (effByte r inv 1) >>> 7) = none) :
    processRow g inv r = .cont .syncNotFound inv := by
  unfold processRow
  rw [h1, h2]
  simp

lemma afterSync_clean (g : Nat → Nat) (inv : Bool) (r : BitRow) (st : SensorType)
    (ulen sp : Nat) (h : mismatchFrom (effByte r (!inv)) sp 0 ulen = none) :
    afterSync g inv r st ulen sp =
      afterUnstuff (!inv) (packetFn (effByte r (!inv)) sp g none) ulen st := by
  unfold afterSync
  rw [h]

lemma afterUnstuff_xor_fail (inv : Bool) (pk : Nat → Nat) (ulen : Nat) (st : SensorType)
    (h : xor_bytes pk (ulen - 1) ≠ 0) :
    afterUnstuff inv pk ulen st = .cont .xorChecksumError inv := by
  unfold afterUnstuff
  rw [if_pos h]

lemma afterUnstuff_crc_fail (inv : Bool) (pk : Nat → Nat) (ulen : Nat) (st : SensorType)
    (h0 : xor_bytes pk (ulen - 1) = 0) (h : crc8 pk ulen 0x07 0x00 ≠ 0) :
    afterUnstuff inv pk ulen st = .cont .crcError inv := by
  unfold afterUnstuff
  rw [if_neg (not_ne_iff.mpr h0), if_pos h]

lemma afterUnstuff_pass (inv : Bool) (pk : Nat → Nat) (ulen : Nat) (st : SensorType)
    (h0 : xor_bytes pk (ulen - 1) = 0) (h1 : crc8 pk ulen 0x07 0x00 = 0) :
    afterUnstuff inv pk ulen st = fieldStage inv (fun i => reverse8 (pk i)) ulen st := by
  unfold afterUnstuff
  rw [if_neg (not_ne_iff.mpr h0), if_neg (not_ne_iff.mpr h1)]

lemma fieldStage_len_fail (inv : Bool) (P : Nat → Nat) (ulen : Nat) (st : SensorType)
    (h : ((P 1 >>> 1) &&& 0x1f) + 2 ≠ ulen) :
    fieldStage inv P ulen st = .cont .packetLengthMismatch inv := by
  unfold fieldStage
  rw [if_pos h]

lemma fieldStage_emit (inv : Bool) (P : Nat → Nat) (ulen : Nat)
    (h : ((P 1 >>> 1) &&& 0x1f) + 2 = ulen) :
    fieldStage inv P ulen SensorType.RST_TEMP = .emit
      { model := "RST-Temperature"
        id := P 0 &&& 0x0f
        channel :=
          if 5 ≤ ((P 0 >>> 5) &&& 0x0f) then ((P 0 >>> 5) &&& 0x0f) - 1
          else (P 0 >>> 5) &&& 0x0f
        battery_ok := (P 4 >>> 6) &&& 1
        temp_tenths :=
          if (P 4 >>> 7) &&& 1 = 0 then
            -(((P 4 &&& 0x0f) * 100 + ((P 3 &&& 0xf0) >>> 4) * 10 + (P 3 &&& 0x0f) : Nat) : Int)
          else ((P 4 &&& 0x0f) * 100 + ((P 3 &&& 0xf0) >>> 4) * 10 + (P 3 &&& 0x0f) : Nat)
        mic := "CRC" } := by
  unfold fieldStage
  rw [if_neg (not_ne_iff.mpr h), if_pos rfl]

/-! ### The unknown-sensor branch is unreachable -/

lemma afterSync_mismatch_pos (g : Nat → Nat) (inv : Bool) (r : BitRow) (st : SensorType)
    (ulen sp k : Nat) (h : mismatchFrom (effByte r (!inv)) sp 0 ulen = some k)
    (hk : k ≠ 0) : afterSync g inv r st ulen sp = .cont .parityError (!inv) := by
  unfold afterSync
  rw [h]
  simp [hk]

lemma afterSync_mismatch_zero (g : Nat → Nat) (inv : Bool) (r : BitRow) (st : SensorType)
    (ulen sp : Nat) (h : mismatchFrom (effByte r (!inv)) sp 0 ulen = some 0) :
    afterSync g inv r st ulen sp =
      afterUnstuff (!inv) (packetFn (effByte r (!inv)) sp g (some 0)) ulen st := by
  unfold afterSync
  rw [h]
  simp

lemma fieldStage_temp_ne_sanity (inv : Bool) (P : Nat → Nat) (ulen : Nat) :
    fieldStage inv P ulen SensorType.RST_TEMP ≠ .sanityFail := by
  unfold fieldStage
  split_ifs <;> simp_all

lemma afterUnstuff_temp_ne_sanity (inv : Bool) (pk : Nat → Nat) (ulen : Nat) :
    afterUnstuff inv pk ulen SensorType.RST_TEMP ≠ .sanityFail := by
  unfold afterUnstuff
  split_ifs with h1 h2
  · simp
  · simp
  · exact fieldStage_temp_ne_sanity _ _ _

lemma afterSync_temp_ne_sanity (g : Nat → Nat) (inv : Bool) (r : BitRow) (ulen sp : Nat) :
    afterSync g inv r SensorType.RST_TEMP ulen sp ≠ .sanityFail := by
  rcases hm : mismatchFrom (effByte r (!inv)) sp 0 ulen with _ | k
  · rw [afterSync_clean g inv r _ ulen sp hm]
    exact afterUnstuff_temp_ne_sanity _ _ _
  · by_cases hk : k = 0
    · subst hk
      rw [afterSync_mismatch_zero g inv r _ ulen sp hm]
      exact afterUnstuff_temp_ne_sanity _ _ _
    · rw [afterSync_mismatch_pos g inv r _ ulen sp k hm hk]
      simp

lemma processRow_ne_sanity (g : Nat → Nat) (inv : Bool) (r : BitRow) :
    processRow g inv r ≠ .sanityFail := by
  unfold processRow
  split_ifs with h
  · cases hs : syncScan ((effByte r inv 0) <<< 1 ||| (effByte r inv 1) >>> 7) with
    | some sp => exact afterSync_temp_ne_sanity _ _ _ _ _
    | none => simp
  · simp

lemma runRows_fst_ne_sanity (g : Nat → Nat) :
    ∀ (rows : List BitRow) (inv : Bool) (ret : Int), ret ≠ DECODE_FAIL_SANITY →
      (runRows g inv ret rows).1 ≠ DECODE_FAIL_SANITY := by
  intro rows
  induction rows with
  | nil => intro inv ret h; simpa [runRows] using h
  | cons r rest ih =>
    intro inv ret h
    cases hp : processRow g inv r with
    | emit q => simp [runRows, hp, DECODE_FAIL_SANITY]
    | sanityFail => exact absurd hp (processRow_ne_sanity g inv r)
    | cont c inv' =>
      simp only [runRows, hp]
      exact ih inv' (RowFail.code c) (by cases c <;> decide)

/-! ### Row-loop decomposition -/

lemma runRows_append (g : Nat → Nat) (pre : List BitRow) :
    ∀ (rows : List BitRow) (inv : Bool) (ret : Int) (inv' : Bool) (ret' : Int),
      scanState g (inv, ret) pre = some (inv', ret') →
      runRows g inv ret (pre ++ rows) = runRows g inv' ret' rows := by
  induction pre with
  | nil =>
    intro rows inv ret inv' ret' h
    simp only [scanState, Option.some.injEq, Prod.mk.injEq] at h
    rw [List.nil_append, h.1, h.2]
  | cons r pre ih =>
    intro rows inv ret inv' ret' h
    simp only [scanState] at h
    cases hp : processRow g inv r with
    | emit q => rw [hp] at h; simp at h
    | sanityFail => rw [hp] at h; simp at h
    | cont c inv2 =>
      rw [hp] at h
      simp only [List.cons_append, runRows, hp]
      exact ih rows inv2 (RowFail.code c) inv' ret' h

lemma runRows_ret_irrel (g : Nat → Nat) (inv : Bool) (ret ret' : Int)
    (r : BitRow) (rest : List BitRow) :
    runRows g inv ret (r :: rest) = runRows g inv ret' (r :: rest) := rfl

/-! ### Sync-scan characterisation -/

lemma syncScan_char (s : Nat) :
    syncScan s = if s = 0x0d then some 9
      else if s >>> 1 = 0x0d then some 8
      else if s >>> 2 = 0x0d then some 7
      else if s >>> 3 = 0x0d then some 6 else none := by
  have h1 : syncScan s = if s = 0x0d then some 9 else
      if s >>> 1 = 0x0d then some 8 else
      if s >>> 1 >>> 1 = 0x0d then some 7 else
      if s >>> 1 >>> 1 >>> 1 = 0x0d then some 6 else none := rfl
  rw [h1]
  simp only [← Nat.shiftRight_add]

/-! ### Arithmetic helper -/

set_option maxRecDepth 4096 in
lemma and_f0_shiftRight : ∀ x, x < 256 → (x &&& 0xf0) >>> 4 = (x >>> 4) &&& 0x0f := by
  decide

lemma reverse8_lt (b : Nat) : reverse8 b < 256 := Nat.mod_lt _ (by norm_num)

/-! ### Claim theorems -/

/-- C1: the claim fails on the code. For `row_p0` the first parity mismatch is
at payload index 0; the loop then exits with `unstuff_error = 0`, so the
`if (unstuff_error) continue;` guard does not fire and the row is NOT skipped
as a parity error: it falls through to the checksum and length stages over a
partially extracted packet, and (with zeroed stack garbage) ends as a
packet-length mismatch whose status code even differs from the parity one.
By contrast `row1`, whose first mismatch is at index 1, is classified as a
parity error exactly as the spec demands. -/
theorem c1_parity_index0_falls_through :
    mismatchFrom (effByte row_p0 true) 9 0 9 = some 0 ∧
    processRow g0 false row_p0 = .cont .packetLengthMismatch true ∧
    rst_decode g0 [row_p0] = (DECODE_ABORT_LENGTH, none) ∧
    RowFail.code .packetLengthMismatch ≠ RowFail.code .parityError ∧
    mismatchFrom (effByte row1 true) 9 0 9 = some 1 ∧
    processRow g0 false row1 = .cont .parityError true := by
  decide

/-- C2 counterexample: `row_valid` passes the parity, XOR, CRC and
declared-length checks while its subtype bits (`packet[2] & 0x1f` on the
reflected payload) are `0x0c` — the anemometer pattern, not the thermo/hygro
pattern `0x1e`; yet the decoder emits the thermo record and returns 1, not
the call-fatal UnknownSensorSubtype classification. -/
theorem c2_unknown_subtype_cex :
    (reverse8 (packetFn (effByte row_valid true) 9 g0 none 2)) &&& 0x1f = 0x0c ∧
    (0x0c : Nat) ≠ 0x1e ∧
    rst_decode g0 [row_valid] = (1, some recValid) ∧
    (rst_decode g0 [row_valid]).1 ≠ DECODE_FAIL_SANITY := by
  decide

/-- C2 amended: the subtype byte is never examined; the decoder never returns
the UnknownSensorSubtype (`DECODE_FAIL_SANITY`) classification, because the
only accepted row length sets the sensor type to the supported thermo/hygro
variant, so the unknown-sensor branch is unreachable. -/
theorem c2_no_unknown_subtype (g : Nat → Nat) (bb : List BitRow) :
    (rst_decode g bb).1 ≠ DECODE_FAIL_SANITY ∧
    ∀ (inv : Bool) (r : BitRow), processRow g inv r ≠ RowStep.sanityFail :=
  ⟨runRows_fst_ne_sanity g bb false 0 (by decide),
   fun inv r => processRow_ne_sanity g inv r⟩

/-- Witness for the amended C2 at a concrete capture. -/
theorem c2_no_unknown_subtype_w :
    (rst_decode g0 [row_valid]).1 ≠ DECODE_FAIL_SANITY :=
  (c2_no_unknown_subtype g0 [row_valid]).1

/-- C3 counterexample: two captures agreeing on row index 1 (the same `row1`)
give that row different outcomes. In `[row1, row1]` the first row passes the
length and sync checks and therefore inverts the whole shared buffer, so the
second row's sync scan fails (`DECODE_ABORT_EARLY`); in `[rowF, row1]` the
first row fails the length gate, no inversion happens, and the identical row
at index 1 instead fails its parity check (`DECODE_FAIL_MIC`). -/
theorem c3_rows_not_independent_cex :
    ([row1, row1] : List BitRow).getD 1 rowF = ([rowF, row1] : List BitRow).getD 1 rowF ∧
    rst_decode g0 [row1, row1] = (DECODE_ABORT_EARLY, none) ∧
    rst_decode g0 [rowF, row1] = (DECODE_FAIL_MIC, none) ∧
    rst_decode g0 [row1, row1] ≠ rst_decode g0 [rowF, row1] := by
  decide

/-- C3 amended: rows are not evaluated independently; a row that passes the
length and sync checks inverts the entire shared buffer, so the outcome for a
row depends on its own bits and bit count together with the inversion parity
accumulated by the earlier rows. Two captures whose earlier rows all take the
`continue` path and reach the same inversion parity process the shared
remaining rows identically. -/
theorem c3_row_dependence (g : Nat → Nat) (pre pre' : List BitRow) (inv : Bool)
    (ret ret' : Int) (r : BitRow) (rest : List BitRow)
    (h : scanState g (false, 0) pre = some (inv, ret))
    (h' : scanState g (false, 0) pre' = some (inv, ret')) :
    rst_decode g (pre ++ r :: rest) = rst_decode g (pre' ++ r :: rest) := by
  unfold rst_decode
  rw [runRows_append g pre (r :: rest) false 0 inv ret h,
    runRows_append g pre' (r :: rest) false 0 inv ret' h']
  exact runRows_ret_irrel g inv ret ret' r rest

/-- Witness for the amended C3: a length-failing first row neither inverts the
buffer nor changes the remaining rows' processing. -/
theorem c3_row_dependence_w :
    rst_decode g0 [rowF, row1] = rst_decode g0 [row1] :=
  c3_row_dependence g0 [rowF] [] false DECODE_ABORT_LENGTH 0 row1 [] (by decide) rfl

/-- C4: for a row that passes length, sync and all parity checks, the checks
run XOR first over the 8 payload bytes before the last, then CRC-8 with
polynomial `0x07` and initial value `0x00` over all 9 bytes, short-circuiting
on the first failure: a nonzero XOR is classified as the XOR-checksum error
whatever the CRC value is, a zero XOR with nonzero CRC as the CRC error, and
only both zero proceed to reflection and field decoding. -/
theorem c4_checksum_order (g : Nat → Nat) (inv : Bool) (r : BitRow) (sp : Nat)
    (h1 : (r.len + 4) / 9 = 10)
    (h2 : syncScan ((effByte r inv 0) <<< 1 ||| (effByte r inv 1) >>> 7) = some sp)
    (h3 : mismatchFrom (effByte r (!inv)) sp 0 9 = none) :
    (xor_bytes (packetFn (effByte r (!inv)) sp g none) 8 ≠ 0 →
      processRow g inv r = .cont .xorChecksumError (!inv))
    ∧ (xor_bytes (packetFn (effByte r (!inv)) sp g none) 8 = 0 →
      crc8 (packetFn (effByte r (!inv)) sp g none) 9 0x07 0x00 ≠ 0 →
      processRow g inv r = .cont .crcError (!inv))
    ∧ (xor_bytes (packetFn (effByte r (!inv)) sp g none) 8 = 0 →
      crc8 (packetFn (effByte r (!inv)) sp g none) 9 0x07 0x00 = 0 →
      processRow g inv r =
        fieldStage (!inv) (fun i => reverse8 (packetFn (effByte r (!inv)) sp g none i)) 9
          SensorType.RST_TEMP) := by
  have hp := processRow_sync_some g inv r sp h1 h2
  have ha := afterSync_clean g inv r SensorType.RST_TEMP 9 sp h3
  refine ⟨fun hx => ?_, fun hx hcrc => ?_, fun hx hcrc => ?_⟩
  · rw [hp, ha]; exact afterUnstuff_xor_fail _ _ _ _ hx
  · rw [hp, ha]; exact afterUnstuff_crc_fail _ _ _ _ hx hcrc
  · rw [hp, ha]; exact afterUnstuff_pass _ _ _ _ hx hcrc

/-- Witness for C4 at the concrete rows `row_xor` and `row_crc`. -/
theorem c4_checksum_order_w :
    processRow g0 false row_xor = .cont .xorChecksumError true ∧
    processRow g0 false row_crc = .cont .crcError true := by
  constructor
  · exact (c4_checksum_order g0 false row_xor 9 (by decide) (by decide) (by decide)).1
      (by decide)
  · exact (c4_checksum_order g0 false row_crc 9 (by decide) (by decide) (by decide)).2.1
      (by decide) (by decide)

/-- C5: the length gate: `unstuffed_len = (bit_count + 4) / 9` must equal 10;
any other value classifies the row as a length mismatch regardless of its bit
contents and the loop continues with the next row (storing
`DECODE_ABORT_LENGTH`); an accepted row proceeds to the sync scan as the
thermo/hygro type with the payload byte count decremented to 9. -/
theorem c5_length_gate (g : Nat → Nat) (inv : Bool) (r : BitRow) (ret : Int)
    (rest : List BitRow) :
    ((r.len + 4) / 9 ≠ 10 →
      processRow g inv r = .cont .lengthMismatch inv ∧
      runRows g inv ret (r :: rest) = runRows g inv DECODE_ABORT_LENGTH rest)
    ∧ ((r.len + 4) / 9 = 10 →
      processRow g inv r =
        match syncScan ((effByte r inv 0) <<< 1 ||| (effByte r inv 1) >>> 7) with
        | some sp => afterSync g inv r SensorType.RST_TEMP 9 sp
        | none => .cont .syncNotFound inv) := by
  constructor
  · intro h
    have hp := processRow_bad_len g inv r h
    refine ⟨hp, ?_⟩
    simp only [runRows, hp, RowFail.code]
  · intro h
    unfold processRow
    rw [h]
    simp

/-- Witness for C5 at the concrete rows `rowF` (10 bits) and `row_valid`. -/
theorem c5_length_gate_w :
    (processRow g0 false rowF = .cont .lengthMismatch false ∧
      runRows g0 false 0 (rowF :: []) = runRows g0 false DECODE_ABORT_LENGTH []) ∧
    processRow g0 false row_valid = afterSync g0 false row_valid SensorType.RST_TEMP 9 9 := by
  constructor
  · exact (c5_length_gate g0 false rowF 0 []).1 (by decide)
  · exact (c5_length_gate g0 false row_valid 0 []).2 (by decide)

/-- C6: the sync locator: for a row passing the length gate it forms the 9-bit
window `byte0 << 1 | byte1 >> 7` from the row's first two bytes; if no right
shift by 0..3 of that window equals `0x0d` the row is classified sync-not-found
and skipped without inverting the buffer, and if the first matching shift
count is `i` the payload start offset is `9 - i`. -/
theorem c6_sync_locator (g : Nat → Nat) (inv : Bool) (r : BitRow)
    (hlen : (r.len + 4) / 9 = 10) :
    ((∀ i, i < 4 → (((effByte r inv 0) <<< 1 ||| (effByte r inv 1) >>> 7) >>> i) ≠ 0x0d) →
      processRow g inv r = .cont .syncNotFound inv)
    ∧ (∀ i, i < 4 →
        (((effByte r inv 0) <<< 1 ||| (effByte r inv 1) >>> 7) >>> i) = 0x0d →
        (∀ j, j < i → (((effByte r inv 0) <<< 1 ||| (effByte r inv 1) >>> 7) >>> j) ≠ 0x0d) →
        processRow g inv r = afterSync g inv r SensorType.RST_TEMP 9 (9 - i)) := by
  have hc := syncScan_char ((effByte r inv 0) <<< 1 ||| (effByte r inv 1) >>> 7)
  constructor
  · intro hnone
    have h0 := hnone 0 (by norm_num)
    have h1 := hnone 1 (by norm_num)
    have h2 := hnone 2 (by norm_num)
    have h3 := hnone 3 (by norm_num)
    rw [Nat.shiftRight_zero] at h0
    rw [if_neg h0, if_neg h1, if_neg h2, if_neg h3] at hc
    exact processRow_sync_none g inv r hlen hc
  · intro i hi hmatch hfirst
    interval_cases i
    · rw [Nat.shiftRight_zero] at hmatch
      rw [if_pos hmatch] at hc
      exact processRow_sync_some g inv r 9 hlen hc
    · have h0 := hfirst 0 (by norm_num)
      rw [Nat.shiftRight_zero] at h0
      rw [if_neg h0, if_pos hmatch] at hc
      exact processRow_sync_some g inv r 8 hlen hc
    · have h0 := hfirst 0 (by norm_num)
      have h1 := hfirst 1 (by norm_num)
      rw [Nat.shiftRight_zero] at h0
      rw [if_neg h0, if_neg h1, if_pos hmatch] at hc
      exact processRow_sync_some g inv r 7 hlen hc
    · have h0 := hfirst 0 (by norm_num)
      have h1 := hfirst 1 (by norm_num)
      have h2 := hfirst 2 (by norm_num)
      rw [Nat.shiftRight_zero] at h0
      rw [if_neg h0, if_neg h1, if_neg h2, if_pos hmatch] at hc
      exact processRow_sync_some g inv r 6 hlen hc

/-- Witness for C6 at the concrete rows `row_nosync` and `row_valid` (sync
match at shift count 0, start offset 9). -/
theorem c6_sync_locator_w :
    processRow g0 false row_nosync = .cont .syncNotFound false ∧
    processRow g0 false row_valid = afterSync g0 false row_valid SensorType.RST_TEMP 9 9 := by
  constructor
  · exact (c6_sync_locator g0 false row_nosync (by decide)).1 (by decide)
  · exact (c6_sync_locator g0 false row_valid (by decide)).2 0 (by decide) (by decide)
      (by decide)

/-- C7: after both checksums pass and the payload is reflected, the row is
rejected as a packet-length mismatch exactly when the declared length
`(byte1 >> 1) & 0x1f` plus 2 differs from the unstuffed length 9; on
rejection no record is emitted and the loop continues with the next row
(storing `DECODE_ABORT_LENGTH`). -/
theorem c7_declared_length (g : Nat → Nat) (inv : Bool) (r : BitRow) (sp : Nat)
    (ret : Int) (rest : List BitRow)
    (h1 : (r.len + 4) / 9 = 10)
    (h2 : syncScan ((effByte r inv 0) <<< 1 ||| (effByte r inv 1) >>> 7) = some sp)
    (h3 : mismatchFrom (effByte r (!inv)) sp 0 9 = none)
    (h4 : xor_bytes (packetFn (effByte r (!inv)) sp g none) 8 = 0)
    (h5 : crc8 (packetFn (effByte r (!inv)) sp g none) 9 0x07 0x00 = 0) :
    (processRow g inv r = .cont .packetLengthMismatch (!inv) ↔
      ((reverse8 (packetFn (effByte r (!inv)) sp g none 1) >>> 1) &&& 0x1f) + 2 ≠ 9)
    ∧ (((reverse8 (packetFn (effByte r (!inv)) sp g none 1) >>> 1) &&& 0x1f) + 2 ≠ 9 →
      runRows g inv ret (r :: rest) = runRows g (!inv) DECODE_ABORT_LENGTH rest) := by
  have hp := processRow_sync_some g inv r sp h1 h2
  have ha := afterSync_clean g inv r SensorType.RST_TEMP 9 sp h3
  have hu := afterUnstuff_pass (!inv) (packetFn (effByte r (!inv)) sp g none) 9
    SensorType.RST_TEMP h4 h5
  have key : processRow g inv r =
      fieldStage (!inv) (fun i => reverse8 (packetFn (effByte r (!inv)) sp g none i)) 9
        SensorType.RST_TEMP := by
    rw [hp, ha, hu]
  constructor
  · constructor
    · intro hrow heq
      rw [key, fieldStage_emit (!inv)
        (fun i => reverse8 (packetFn (effByte r (!inv)) sp g none i)) 9 heq] at hrow
      exact RowStep.noConfusion hrow
    · intro hlen
      rw [key]
      exact fieldStage_len_fail _ _ _ _ hlen
  · intro hlen
    have hrow : processRow g inv r = .cont .packetLengthMismatch (!inv) := by
      rw [key]
      exact fieldStage_len_fail _ _ _ _ hlen
    simp only [runRows, hrow, RowFail.code]

/-- Witness for C7 at the concrete row `row_len` (declared length 6, so
6 + 2 = 8 ≠ 9). -/
theorem c7_declared_length_w :
    processRow g0 false row_len = .cont .packetLengthMismatch true ∧
    runRows g0 false 0 (row_len :: []) = runRows g0 true DECODE_ABORT_LENGTH [] := by
  have h := c7_declared_length g0 false row_len 9 0 [] (by decide) (by decide) (by decide)
    (by decide) (by decide)
  exact ⟨h.1.mpr (by decide), h.2 (by decide)⟩

/-- C8 counterexample: for `row_valid` the reflected payload byte 0 is `0x15`
(bit 4 set) and the emitted channel is 0, computed from the top three bits
`(byte0 >> 5) & 0x0f`; the claim's "high 4 bits of byte[0]" formula
`(byte0 >> 4) & 0x0f` (with the ≥ 5 remap) would give 1 instead. -/
theorem c8_channel_cex :
    rst_decode g0 [row_valid] = (1, some recValid) ∧
    reverse8 (packetFn (effByte row_valid true) 9 g0 none 0) = 0x15 ∧
    recValid.channel ≠
      (if 5 ≤ (((0x15 : Nat) >>> 4) &&& 0x0f) then (((0x15 : Nat) >>> 4) &&& 0x0f) - 1
       else ((0x15 : Nat) >>> 4) &&& 0x0f) := by
  decide

/-- C8 amended: for every fully validated, reflected payload the emitted
record has rolling code = low 4 bits of byte 0; channel = bits 5..7 of byte 0
(`(byte0 >> 5) & 0x0f`, the top three bits — not the high 4 bits) with values
≥ 5 decremented by 1; battery flag = bit 6 of byte 4; temperature magnitude
in tenths `(byte4 & 0x0f) * 100 + ((byte3 >> 4) & 0x0f) * 10 + (byte3 & 0x0f)`,
negated exactly when bit 7 of byte 4 is 0. -/
theorem c8_field_decoding (g : Nat → Nat) (inv : Bool) (r : BitRow) (sp : Nat)
    (h1 : (r.len + 4) / 9 = 10)
    (h2 : syncScan ((effByte r inv 0) <<< 1 ||| (effByte r inv 1) >>> 7) = some sp)
    (h3 : mismatchFrom (effByte r (!inv)) sp 0 9 = none)
    (h4 : xor_bytes (packetFn (effByte r (!inv)) sp g none) 8 = 0)
    (h5 : crc8 (packetFn (effByte r (!inv)) sp g none) 9 0x07 0x00 = 0)
    (h6 : ((reverse8 (packetFn (effByte r (!inv)) sp g none 1) >>> 1) &&& 0x1f) + 2 = 9) :
    processRow g inv r = .emit
      { model := "RST-Temperature"
        id := reverse8 (packetFn (effByte r (!inv)) sp g none 0) &&& 0x0f
        channel :=
          if 5 ≤ ((reverse8 (packetFn (effByte r (!inv)) sp g none 0) >>> 5) &&& 0x0f) then
            ((reverse8 (packetFn (effByte r (!inv)) sp g none 0) >>> 5) &&& 0x0f) - 1
          else (reverse8 (packetFn (effByte r (!inv)) sp g none 0) >>> 5) &&& 0x0f
        battery_ok := (reverse8 (packetFn (effByte r (!inv)) sp g none 4) >>> 6) &&& 1
        temp_tenths :=
          if (reverse8 (packetFn (effByte r (!inv)) sp g none 4) >>> 7) &&& 1 = 0 then
            -(((reverse8 (packetFn (effByte r (!inv)) sp g none 4) &&& 0x0f) * 100 +
               ((reverse8 (packetFn (effByte r (!inv)) sp g none 3) >>> 4) &&& 0x0f) * 10 +
               (reverse8 (packetFn (effByte r (!inv)) sp g none 3) &&& 0x0f) : Nat) : Int)
          else ((reverse8 (packetFn (effByte r (!inv)) sp g none 4) &&& 0x0f) * 100 +
               ((reverse8 (packetFn (effByte r (!inv)) sp g none 3) >>> 4) &&& 0x0f) * 10 +
               (reverse8 (packetFn (effByte r (!inv)) sp g none 3) &&& 0x0f) : Nat)
        mic := "CRC" } := by
  have hp := processRow_sync_some g inv r sp h1 h2
  have ha := afterSync_clean g inv r SensorType.RST_TEMP 9 sp h3
  have hu := afterUnstuff_pass (!inv) (packetFn (effByte r (!inv)) sp g none) 9
    SensorType.RST_TEMP h4 h5
  have he3 : (reverse8 (packetFn (effByte r (!inv)) sp g none 3) &&& 0xf0) >>> 4 =
      (reverse8 (packetFn (effByte r (!inv)) sp g none 3) >>> 4) &&& 0x0f :=
    and_f0_shiftRight _ (reverse8_lt _)
  rw [hp, ha, hu, fieldStage_emit (!inv)
    (fun i => reverse8 (packetFn (effByte r (!inv)) sp g none i)) 9 h6]
  rw [he3]

/-- Witness for the amended C8 at the concrete row `row_valid`. -/
theorem c8_field_decoding_w : processRow g0 false row_valid = .emit recValid := by
  have h := c8_field_decoding g0 false row_valid 9 (by decide) (by decide) (by decide)
    (by decide) (by decide) (by decide)
  exact h.trans (by decide)

/-- C9: propagation: after any prefix of rows that all fail non-fatally, a row
that fully succeeds makes the call return 1 with its record immediately, for
any rows that follow (they are not processed); and if the capture ends with a
failing row, the call returns that last row's classification code with no
record. -/
theorem c9_propagation :
    (∀ (g : Nat → Nat) (pre : List BitRow) (inv : Bool) (ret : Int) (r : BitRow)
        (rest : List BitRow) (q : Record),
      scanState g (false, 0) pre = some (inv, ret) →
      processRow g inv r = RowStep.emit q →
      rst_decode g (pre ++ r :: rest) = (1, some q))
    ∧ (∀ (g : Nat → Nat) (pre : List BitRow) (inv : Bool) (ret : Int) (r : BitRow)
        (c : RowFail) (inv' : Bool),
      scanState g (false, 0) pre = some (inv, ret) →
      processRow g inv r = RowStep.cont c inv' →
      rst_decode g (pre ++ [r]) = (RowFail.code c, none)) := by
  constructor
  · intro g pre inv ret r rest q h1 h2
    unfold rst_decode
    rw [runRows_append g pre (r :: rest) false 0 inv ret h1]
    simp only [runRows, h2]
  · intro g pre inv ret r c inv' h1 h2
    unfold rst_decode
    rw [runRows_append g pre [r] false 0 inv ret h1]
    simp only [runRows, h2]

/-- Witness for C9: a successful first row returns immediately with the record
(the trailing row is not decisive), and a single failing row's classification
code is returned. -/
theorem c9_propagation_w :
    rst_decode g0 [row_valid, rowF] = (1, some recValid) ∧
    rst_decode g0 [row_nosync] = (DECODE_ABORT_EARLY, none) := by
  constructor
  · exact c9_propagation.1 g0 [] false 0 row_valid [rowF] recValid rfl (by decide)
  · exact c9_propagation.2 g0 [] false 0 row_nosync RowFail.syncNotFound false rfl
      (by decide)

/-- C10: a call with zero rows returns the initial value `(0, no record)`
without running any row-stage logic; 0 is distinct from the success value 1
and from every failure status code. -/
theorem c10_empty_capture (g : Nat → Nat) :
    rst_decode g [] = (0, none) ∧
    (∀ c : RowFail, RowFail.code c ≠ 0) ∧
    DECODE_FAIL_SANITY ≠ 0 ∧ (1 : Int) ≠ 0 := by
  refine ⟨rfl, fun c => ?_, by decide, by decide⟩
  cases c <;> decide

/-- Witness for C10 at a concrete garbage model. -/
theorem c10_empty_capture_w : rst_decode g0 [] = (0, none) :=
  (c10_empty_capture g0).1

end RstSweden
